import Mathlib

/-!
Verification of the crux local multi-service orchestrator (Go) against its
natural-language specification.  Each section shallowly embeds one component
of the source:

* `ProcessManager` / `ManagedProcess` — internal/process (StartProcess, Stop);
* the dependency readiness gate — cmd/playground/config.go
  (`CheckDependencies`, `checkDependency`, the 2-second poll loop);
* wezterm tab resolution and the MCP tool surface — cmd/mcp/main.go
  (`findTab`, `handleToolCall`, the tools/list vocabulary);
* log rotation performed by the generated shell wrapper — `wrapCommand`
  in the terminal package;
* the crash-detection scan — `checkServiceFailures` in the orchestrator main.

Go strings are modelled as Lean `String`; the few string primitives the code
uses (ToLower, Contains, Atoi, TrimSpace/HasSuffix, regexp search) are
implemented structurally on `List Char` so that all definitions evaluate.
External effects (pipe creation, process launch, shell command exit codes,
wezterm CLI calls, file reads) are modelled as explicit oracle records; the
functions below are otherwise direct translations of the Go control flow.
-/

namespace CruxSpec

/-! ## String primitives (strings.ToLower, Contains, HasSuffix, strconv.Atoi) -/

/-- ASCII lower-casing of one character (`strings.ToLower` on the ASCII
service names and references used by the control plane). -/
def lowerChar (c : Char) : Char :=
  if 65 ≤ c.toNat ∧ c.toNat ≤ 90 then Char.ofNat (c.toNat + 32) else c

/-- `strings.ToLower`. -/
def toLowerStr (s : String) : String := ⟨s.data.map lowerChar⟩

/-- `strings.HasPrefix` on character lists: first argument is the pattern. -/
def hasPrefixL : List Char → List Char → Bool
  | [], _ => true
  | _ :: _, [] => false
  | p :: ps, s :: ss => p == s && hasPrefixL ps ss

/-- `strings.Contains s pat`: does `pat` occur inside `s`. -/
def containsL (s pat : List Char) : Bool :=
  if hasPrefixL pat s then true
  else
    match s with
    | [] => false
    | _ :: t => containsL t pat

/-- Value of an ASCII decimal digit. -/
def digitVal (c : Char) : Option Nat :=
  if 48 ≤ c.toNat ∧ c.toNat ≤ 57 then some (c.toNat - 48) else none

/-- Accumulating decimal parser over a digit run; fails on a non-digit. -/
def digitsToNatAux : Nat → List Char → Option Nat
  | acc, [] => some acc
  | acc, c :: t =>
    match digitVal c with
    | some d => digitsToNatAux (acc * 10 + d) t
    | none => none

/-- Parse a non-empty all-digit string. -/
def digitsToNat : List Char → Option Nat
  | [] => none
  | l => digitsToNatAux 0 l

/-- `strconv.Atoi`: optional sign followed by at least one decimal digit. -/
def atoi (s : String) : Option Int :=
  match s.data with
  | [] => none
  | c :: rest =>
    if c == '+' then (digitsToNat rest).map Int.ofNat
    else if c == '-' then (digitsToNat rest).map (fun n => -(n : Int))
    else (digitsToNat (c :: rest)).map Int.ofNat

/-- ASCII whitespace, as used by `strings.TrimSpace` on the start commands
that appear in the dependency gate. -/
def isSpaceChar (c : Char) : Bool :=
  c == ' ' || c == '\t' || c == '\n' || c == '\r'

/-- `strings.TrimSpace`. -/
def trimSpaceL (l : List Char) : List Char :=
  ((l.dropWhile isSpaceChar).reverse.dropWhile isSpaceChar).reverse

/-- `strings.HasSuffix(strings.TrimSpace(s), "&")`: is the command written as
a self-backgrounding shell command. -/
def endsWithAmp (s : String) : Bool :=
  (trimSpaceL s.data).getLast? == some '&'

/-! ## ProcessManager and ManagedProcess (internal/process)

`ManagedProcess` carries the mutable fields of the Go struct together with
bookkeeping for the external effects `Stop` performs: how often each stdio
stream was closed, whether the cancellation context was cancelled and whether
the process had to be force-killed.  `exitsWithin5s` is the environment fact
of whether the child exits inside the 5-second grace period. -/

inductive ProcessState where
  | stopped
  | starting
  | running
  | stopping
  | error
deriving DecidableEq, Repr

structure ManagedProcess where
  id : String
  name : String
  state : ProcessState
  cancelCalled : Bool
  killed : Bool
  hasProc : Bool
  hasStdout : Bool
  hasStderr : Bool
  hasStdin : Bool
  stdoutCloses : Nat
  stderrCloses : Nat
  stdinCloses : Nat
  exitsWithin5s : Bool
  outputLines : List String
  maxLines : Nat
deriving DecidableEq, Repr

/-- The manager's `processes` map, as an association list keyed by ID. -/
structure ProcessManager where
  processes : List (String × ManagedProcess)
deriving DecidableEq, Repr

/-- Association-list lookup (Go map read `pm.processes[id]`). -/
def lookupEntries : List (String × ManagedProcess) → String → Option ManagedProcess
  | [], _ => none
  | (k, v) :: t, id => if k = id then some v else lookupEntries t id

def lookupProc (pm : ProcessManager) (id : String) : Option ManagedProcess :=
  lookupEntries pm.processes id

def insertProc (pm : ProcessManager) (id : String) (p : ManagedProcess) :
    ProcessManager :=
  ⟨(id, p) :: pm.processes⟩

def eraseProc (pm : ProcessManager) (id : String) : ProcessManager :=
  ⟨pm.processes.filter (fun e => e.1 ≠ id)⟩

/-- Keys of the process map are pairwise distinct (Go map semantics). -/
def procKeysNodup (pm : ProcessManager) : Prop :=
  (pm.processes.map Prod.fst).Nodup

/-- Environment outcomes of the fallible steps inside `StartProcess`. -/
structure SpawnEnv where
  stdoutPipeOk : Bool
  stderrPipeOk : Bool
  stdinPipeOk : Bool
  startOk : Bool
  exitsWithin5s : Bool
deriving DecidableEq, Repr

/-- `ProcessManager.StartProcess` (internal/process).  Checks for an existing
entry under the same ID, opens the three stdio pipes, registers the entry,
launches the command — discarding the entry again when the launch fails —
and transitions the process to Running on success. -/
def startProcess (pm : ProcessManager) (id name : String) (env : SpawnEnv) :
    Except String ManagedProcess × ProcessManager :=
  match lookupProc pm id with
  | some _ => (.error ("process " ++ id ++ " already exists"), pm)
  | none =>
    if !env.stdoutPipeOk then (.error ("failed to create stdout pipe"), pm)
    else if !env.stderrPipeOk then (.error ("failed to create stderr pipe"), pm)
    else if !env.stdinPipeOk then (.error ("failed to create stdin pipe"), pm)
    else
      let proc : ManagedProcess :=
        { id := id, name := name, state := .starting, cancelCalled := false,
          killed := false, hasProc := true, hasStdout := true,
          hasStderr := true, hasStdin := true, stdoutCloses := 0,
          stderrCloses := 0, stdinCloses := 0,
          exitsWithin5s := env.exitsWithin5s, outputLines := [],
          maxLines := 1000 }
      let pm1 := insertProc pm id proc
      if !env.startOk then
        -- cmd.Start failed: state becomes Error, pipes are closed and the
        -- entry is deleted from the map again.
        (.error ("failed to start process"), eraseProc pm1 id)
      else
        let running := { proc with state := .running }
        (.ok running, insertProc pm id running)

/-- `ManagedProcess.Stop`.  Returns immediately when already Stopped or
Stopping; otherwise transitions to Stopping, cancels the context, waits up to
5 seconds before force-killing, closes the three streams and ends Stopped.
The Go method always returns `nil`; the `Option String` component is its
error result. -/
def stopProcess (p : ManagedProcess) : ManagedProcess × Option String :=
  if p.state = .stopped ∨ p.state = .stopping then (p, none)
  else
    let p1 := { p with state := ProcessState.stopping, cancelCalled := true }
    let p2 :=
      if p1.hasProc && !p1.exitsWithin5s then { p1 with killed := true } else p1
    let p3 :=
      { p2 with
        stdoutCloses := if p2.hasStdout then p2.stdoutCloses + 1 else p2.stdoutCloses,
        stderrCloses := if p2.hasStderr then p2.stderrCloses + 1 else p2.stderrCloses,
        stdinCloses := if p2.hasStdin then p2.stdinCloses + 1 else p2.stdinCloses }
    ({ p3 with state := ProcessState.stopped }, none)

/-! ## Dependency readiness gate (cmd/playground/config.go)

`DepBehavior` is the oracle for the external world seen by one dependency:
the result of the initial check, whether the start command succeeded
(`CombinedOutput`, resp. `Start` for self-backgrounding commands) and the
result of the k-th poll of the check command. -/

structure DependencyConfig where
  name : String
  check : String
  start : String
  timeout : Nat
deriving DecidableEq, Repr

structure DepBehavior where
  initialCheck : Bool
  startOk : Bool
  bgStartOk : Bool
  startErr : String
  pollResult : Nat → Bool

/-- Effective timeout: the YAML `timeout` field, defaulting to 30 seconds
when absent (zero). -/
def effectiveTimeout (dep : DependencyConfig) : Nat :=
  if dep.timeout = 0 then 30 else dep.timeout

/-- The poll loop of `checkDependency`: while the current time is before the
deadline, sleep 2 seconds, increment the attempt counter and run the check.
Returns `.ok attempts` when a poll succeeds and `.error attempts` when the
deadline passes, where `attempts` counts the polls that were run (elapsed
polling time is `2 * attempts` seconds). -/
def pollCheck (check : Nat → Bool) (deadline now attempts : Nat) :
    Except Nat Nat :=
  if now < deadline then
    let attempts2 := attempts + 1
    if check attempts2 then .ok attempts2
    else pollCheck check deadline (now + 2) attempts2
  else .error attempts
termination_by deadline - now
decreasing_by simp_wf; omega

/-- `checkDependency` (cmd/playground/config.go): run the check; if it fails
and no start command is configured, fail with the "not running, no start
command" error; otherwise execute the start command (tolerating
self-backgrounding commands) and poll the check every 2 seconds until the
timeout. -/
def checkDependency (dep : DependencyConfig) (beh : DepBehavior) :
    Except String Unit :=
  let t := effectiveTimeout dep
  if beh.initialCheck then .ok ()
  else if dep.start = "" then
    .error ("dependency " ++ dep.name ++
      " is not running and no start command provided")
  else if !beh.startOk && endsWithAmp dep.start && !beh.bgStartOk then
    .error ("failed to start " ++ dep.name ++ ": " ++ beh.startErr)
  else if !beh.startOk && !endsWithAmp dep.start then
    .error ("failed to start " ++ dep.name)
  else
    match pollCheck beh.pollResult t 0 0 with
    | .ok _ => .ok ()
    | .error _ =>
      .error ("dependency " ++ dep.name ++
        " failed to become ready within " ++ toString t ++ "s")

/-- `PlaygroundConfig.CheckDependencies`: dependencies are processed in
declaration order and the first failure aborts the whole gate. -/
def checkDependencies (deps : List (DependencyConfig × DepBehavior)) :
    Except String Unit :=
  match deps with
  | [] => .ok ()
  | (d, b) :: rest =>
    match checkDependency d b with
    | .ok _ => checkDependencies rest
    | .error e => .error e

/-! ## Wezterm tab resolution and the MCP tool surface (cmd/mcp/main.go) -/

/-- One wezterm pane as parsed from `wezterm cli list`. -/
structure Pane where
  paneID : Nat
  title : String
  size : String
  cwd : String
deriving DecidableEq, Repr

/-- The numbered name list used in the not-found error: `i:title` with
1-based positions. -/
def listingFrom (i : Nat) : List Pane → List String
  | [] => []
  | p :: rest => (toString i ++ ":" ++ p.title) :: listingFrom (i + 1) rest

/-- Go `%v` rendering of a `[]string`. -/
def goStringSliceFmt (l : List String) : String :=
  "[" ++ String.intercalate (" ") l ++ "]"

/-- The enumerated-names error produced when a reference resolves to no
pane: `tab 'ref' not found. Available: [1:a 2:b ...]`. -/
def notFoundMsg (panes : List Pane) (tabRef : String) : String :=
  "tab \x27" ++ tabRef ++ "\x27 not found. Available: " ++
    goStringSliceFmt (listingFrom 1 panes)

/-- Numeric branch of `findTab`: a reference that parses as an integer
`n ≥ 1` resolves to the pane at 0-based index `n - 1` when that index is in
range, and to nothing otherwise (no out-of-range error — the caller falls
through to title matching). -/
def numericResolve (panes : List Pane) (tabRef : String) :
    Option (Pane × Nat) :=
  match atoi tabRef with
  | some n =>
    if 1 ≤ n then
      match panes.get? (n - 1).toNat with
      | some p => some (p, n.toNat)
      | none => none
    else none
  | none => none

/-- Does `tabRef` match the pane title (case-insensitive substring)? -/
def titleMatches (tabRef : String) (p : Pane) : Bool :=
  containsL (toLowerStr p.title).data (toLowerStr tabRef).data

/-- Title branch of `findTab`: the first pane (in listing order) whose title
contains the reference case-insensitively, with its 1-based tab number. -/
def titleResolveFrom (tabRef : String) (i : Nat) :
    List Pane → Option (Pane × Nat)
  | [] => none
  | p :: rest =>
    if titleMatches tabRef p then some (p, i)
    else titleResolveFrom tabRef (i + 1) rest

def titleResolve (panes : List Pane) (tabRef : String) :
    Option (Pane × Nat) :=
  titleResolveFrom tabRef 1 panes

/-- `findTab` (cmd/mcp/main.go): resolve a caller reference against the
current pane listing — numeric 1-based position first, then case-insensitive
substring match on titles, otherwise the enumerated-names error. -/
def findTab (panes : List Pane) (tabRef : String) :
    Except String (Pane × Nat) :=
  if panes.length = 0 then .error ("no wezterm tabs found")
  else
    match numericResolve panes tabRef with
    | some r => .ok r
    | none =>
      match titleResolve panes tabRef with
      | some r => .ok r
      | none => .error (notFoundMsg panes tabRef)

/-- Environment oracle for the wezterm CLI calls the MCP tool handlers
perform: the pane listing (`none` when `wezterm cli list` itself fails) and
the outcomes of `send-text`, `get-text` and `activate-pane`. -/
structure WeztermEnv where
  panes : Option (List Pane)
  listErr : String
  sendOk : Bool
  sendErr : String
  getText : Option String
  getTextErr : String
  activateOk : Bool
  activateErr : String

/-- One entry of the `tools/list` response: tool name, description and the
required argument names of its input schema. -/
structure ToolSpec where
  name : String
  description : String
  required : List String
deriving DecidableEq, Repr

/-- The tool vocabulary returned by the bridge for `tools/list`
(cmd/mcp/main.go, `handleRequest`, case "tools/list"). -/
def toolsList : List ToolSpec :=
  [ { name := "crux_status",
      description :=
        "List all running terminal tabs with their numbers and titles.",
      required := [] },
    { name := "crux_send",
      description :=
        "Send text/command to a terminal tab. For Flutter: \x27r\x27 = hot reload, \x27R\x27 = hot restart, \x27q\x27 = quit.",
      required := ["tab", "text"] },
    { name := "crux_logs",
      description :=
        "Get terminal output (scrollback) from a tab. Returns the last N lines.",
      required := ["tab"] },
    { name := "crux_focus",
      description := "Focus/activate a specific terminal tab",
      required := ["tab"] } ]

/-- `findTab` including the `listPanes` call it starts with, which can fail
when wezterm is not running. -/
def findTabE (env : WeztermEnv) (tabRef : String) :
    Except String (Pane × Nat) :=
  match env.panes with
  | none => .error ("wezterm not running or not available: " ++ env.listErr)
  | some ps => findTab ps tabRef

/-- Per-pane blocks of the `crux_status` text. -/
def paneBlocks (i : Nat) : List Pane → String
  | [] => ""
  | p :: rest =>
    "Tab " ++ toString i ++ ": " ++ p.title ++ "\n" ++
    "  Size: " ++ p.size ++ "\n" ++
    (if p.cwd = "" then "" else "  CWD: " ++ p.cwd ++ "\n") ++
    "\n" ++ paneBlocks (i + 1) rest

/-- `getStatus`: the full tab listing text, or an error when wezterm is
unavailable or has no tabs.  The `Bool` is the tool result's isError flag. -/
def getStatus (env : WeztermEnv) : String × Bool :=
  match env.panes with
  | none =>
    ("Error: wezterm not running or not available: " ++ env.listErr, true)
  | some [] => ("No wezterm tabs found. Is wezterm running?", true)
  | some ps =>
    ("Wezterm Tabs\n============\n\n" ++ paneBlocks 1 ps ++
     "Commands:\n  r = hot reload (Flutter)\n  R = hot restart (Flutter)\n  q = quit\n",
     false)

/-- `sendToTab`: resolve the reference, then `wezterm cli send-text`. -/
def sendToTab (env : WeztermEnv) (tabRef text : String) : String × Bool :=
  match findTabE env tabRef with
  | .error e => ("Error: " ++ e, true)
  | .ok (p, n) =>
    if env.sendOk then
      ("Sent \x27" ++ text ++ "\x27 to tab " ++ toString n ++ " (" ++
        p.title ++ ")", false)
    else ("Failed to send to tab " ++ toString n ++ ": " ++ env.sendErr, true)

/-- Line-count clamping of `crux_logs`: default 50, cap 1000. -/
def computeNumLines (lines : String) : Nat :=
  let base :=
    match atoi lines with
    | some n => if 0 < n then n.toNat else 50
    | none => 50
  if base > 1000 then 1000 else base

/-- `getTabLogs`: resolve the reference, then `wezterm cli get-text` for the
last N lines of scrollback. -/
def getTabLogs (env : WeztermEnv) (tabRef lines : String) : String × Bool :=
  match findTabE env tabRef with
  | .error e => ("Error: " ++ e, true)
  | .ok (p, n) =>
    let numLines := computeNumLines lines
    match env.getText with
    | none =>
      ("Failed to get text from tab " ++ toString n ++ ": " ++
        env.getTextErr, true)
    | some output =>
      ("=== Tab " ++ toString n ++ ": " ++ p.title ++ " (last " ++
        toString numLines ++ " lines) ===\n\n" ++ output, false)

/-- `focusTab`: resolve the reference, then `wezterm cli activate-pane`
(followed by a best-effort window activation). -/
def focusTab (env : WeztermEnv) (tabRef : String) : String × Bool :=
  match findTabE env tabRef with
  | .error e => ("Error: " ++ e, true)
  | .ok (p, n) =>
    if env.activateOk then
      ("Focused tab " ++ toString n ++ " (" ++ p.title ++ ")", false)
    else
      ("Failed to focus tab " ++ toString n ++ ": " ++ env.activateErr, true)

/-- `handleToolCall` (cmd/mcp/main.go): dispatch on the tool name; unknown
names produce an error result.  `tab`, `text` and `lines` are the string
arguments extracted from the request parameters. -/
def handleToolCall (toolName tab text lines : String) (env : WeztermEnv) :
    String × Bool :=
  if toolName = "crux_status" then getStatus env
  else if toolName = "crux_send" then sendToTab env tab text
  else if toolName = "crux_logs" then getTabLogs env tab lines
  else if toolName = "crux_focus" then focusTab env tab
  else ("Unknown tool: " ++ toolName, true)

/-! ## Log rotation by the generated command wrapper (terminal package,
`wrapCommand`)

The wrapper shell script, at the start of every run: re-points the `latest`
alias at the new timestamped log file, then prunes old run files with
`ls -t $LOG_DIR/*.log | grep -v latest.log | tail -n +11 | xargs rm -f`
(keep the 10 most recent, alias excluded), and only afterwards creates the
new run file via `tee`.  A directory is modelled as the multiset of run
timestamps it contains plus the alias target; `ls -t` is newest-first
ordering, modelled by an explicit descending insertion sort. -/

/-- Insert into a descending-sorted list, preserving descending order. -/
def insertDescNat (x : Nat) : List Nat → List Nat
  | [] => [x]
  | y :: t => if y ≤ x then x :: y :: t else y :: insertDescNat x t

/-- Sort newest-first (`ls -t`). -/
def sortDesc : List Nat → List Nat
  | [] => []
  | x :: t => insertDescNat x (sortDesc t)

/-- A service's log directory: timestamped run files plus the `latest`
alias target. -/
structure LogDir where
  runs : List Nat
  latest : Option Nat
deriving DecidableEq, Repr

/-- The rotation step of the wrapper: re-point `latest` at the new run and
delete every run file beyond the 10 most recent (the alias is excluded from
the enumeration by `grep -v latest.log`). -/
def rotateStep (d : LogDir) (newTs : Nat) : LogDir :=
  { runs := (sortDesc d.runs).take 10, latest := some newTs }

/-- A full wrapper run: rotate, then create the new timestamped run file
(the first `tee` into `$LOG_FILE`). -/
def runWrapper (d : LogDir) (newTs : Nat) : LogDir :=
  let d1 := rotateStep d newTs
  { d1 with runs := newTs :: d1.runs }

/-! ## Crash-detection scan (`checkServiceFailures`, orchestrator main)

For each service, read `latest.log`, take the last 2048 bytes and search for
the first occurrence of the marker `Exited with code N`; a non-zero `N`
classifies the service as failed. -/

/-- The fixed marker written by the wrapper before the exit code. -/
def markerChars : List Char := ("Exited with code ").data

/-- Leftmost match of the regex `Exited with code (\d+)`: at the first
position where the marker is followed by at least one digit, return the
parsed digit run; otherwise keep scanning. -/
def findExitCode : List Char → Option Nat
  | [] => none
  | c :: rest =>
    if hasPrefixL markerChars (c :: rest) then
      let digits := ((c :: rest).drop markerChars.length).takeWhile
        (fun ch => decide (48 ≤ ch.toNat ∧ ch.toNat ≤ 57))
      if digits.isEmpty then findExitCode rest
      else digitsToNat digits
    else findExitCode rest

/-- Classification of one log tail: failed exactly when the first exit-code
marker carries a non-zero code. -/
def classifyFailed (tail : String) : Bool :=
  match findExitCode tail.data with
  | some code => code != 0
  | none => false

/-- Last `n` bytes of a log file (the scan reads at most 2048). -/
def tailOf (content : String) (n : Nat) : String :=
  ⟨content.data.drop (content.data.length - n)⟩

/-- A service name together with the content of its `latest.log`
(`none` when the file cannot be read). -/
structure ServiceLog where
  name : String
  log : Option String
deriving DecidableEq, Repr

/-- `checkServiceFailures`: the names of the services whose readable log
tail classifies as failed, in input order. -/
def checkServiceFailures (services : List ServiceLog) : List String :=
  match services with
  | [] => []
  | s :: rest =>
    match s.log with
    | none => checkServiceFailures rest
    | some content =>
      if classifyFailed (tailOf content 2048) then
        s.name :: checkServiceFailures rest
      else checkServiceFailures rest

/-! ## Concrete fixtures used by witnesses and counterexamples -/

/-- A running managed process, as produced by a successful `StartProcess`. -/
def procRunning : ManagedProcess :=
  { id := "webapp-a", name := "WebApp a", state := .running,
    cancelCalled := false, killed := false, hasProc := true,
    hasStdout := true, hasStderr := true, hasStdin := true,
    stdoutCloses := 0, stderrCloses := 0, stdinCloses := 0,
    exitsWithin5s := true, outputLines := [], maxLines := 1000 }

/-- A manager that already holds an entry under ID `webapp-a`. -/
def pmEx : ProcessManager := ⟨[(("webapp-a" : String), procRunning)]⟩

/-- An all-succeeding spawn environment. -/
def spawnOk : SpawnEnv :=
  { stdoutPipeOk := true, stderrPipeOk := true, stdinPipeOk := true,
    startOk := true, exitsWithin5s := true }

/-- A wezterm environment in which every CLI call succeeds. -/
def envEx : WeztermEnv :=
  { panes := some
      [ { paneID := 10, title := "backend", size := "80x24", cwd := "/w" },
        { paneID := 11, title := "flutter-ios", size := "80x24", cwd := "/w" },
        { paneID := 12, title := "flutter-android", size := "80x24", cwd := "/w" } ],
    listErr := "", sendOk := true, sendErr := "",
    getText := some ("scrollback"), getTextErr := "", activateOk := true,
    activateErr := "" }

/-- The `flutter-ios` pane of the spec's reference-resolution example. -/
def paneFlutterIos : Pane :=
  { paneID := 11, title := "flutter-ios", size := "80x24", cwd := "/w" }

/-- The session listing of the spec's reference-resolution example. -/
def panesEx : List Pane :=
  [ { paneID := 10, title := "backend", size := "80x24", cwd := "/w" },
    paneFlutterIos,
    { paneID := 12, title := "flutter-android", size := "80x24", cwd := "/w" } ]

/-! ## Helper lemmas -/

theorem lookupEntries_none_iff (l : List (String × ManagedProcess))
    (id : String) :
    lookupEntries l id = none ↔ id ∉ l.map Prod.fst := by
  induction l with
  | nil => simp [lookupEntries]
  | cons a t ih =>
    obtain ⟨k, v⟩ := a
    by_cases hk : k = id
    · subst hk
      simp [lookupEntries]
    · simp [lookupEntries, hk, ih, Ne.symm hk]

theorem procKeysNodup_insert (pm : ProcessManager) (id : String)
    (p : ManagedProcess) (hfresh : lookupProc pm id = none)
    (h : procKeysNodup pm) : procKeysNodup (insertProc pm id p) := by
  have hid : id ∉ pm.processes.map Prod.fst :=
    (lookupEntries_none_iff pm.processes id).mp hfresh
  simpa [procKeysNodup, insertProc] using And.intro hid h

theorem procKeysNodup_erase (pm : ProcessManager) (id : String)
    (h : procKeysNodup pm) : procKeysNodup (eraseProc pm id) := by
  have hsub : List.Sublist
      ((pm.processes.filter (fun e => e.1 ≠ id)).map Prod.fst)
      (pm.processes.map Prod.fst) :=
    (List.filter_sublist pm.processes).map Prod.fst
  exact h.sublist hsub

/-- When a process is already Stopped or Stopping, `Stop` is a no-op that
returns `nil`. -/
theorem stopProcess_noop (p : ManagedProcess)
    (h : p.state = ProcessState.stopped ∨ p.state = ProcessState.stopping) :
    stopProcess p = (p, none) := by
  unfold stopProcess
  rw [if_pos h]

/-- On any state other than Stopped/Stopping, `Stop` ends in state Stopped
and returns `nil`. -/
theorem stopProcess_active (p : ManagedProcess)
    (h : ¬(p.state = ProcessState.stopped ∨ p.state = ProcessState.stopping)) :
    (stopProcess p).1.state = ProcessState.stopped ∧
    (stopProcess p).2 = none := by
  unfold stopProcess
  rw [if_neg h]
  exact ⟨rfl, rfl⟩

/-- `StartProcess` keeps the process-map keys pairwise distinct in every
branch: at most one live entry per ID survives any call. -/
theorem startProcess_preserves_nodup (pm : ProcessManager) (id name : String)
    (env : SpawnEnv) (h : procKeysNodup pm) :
    procKeysNodup (startProcess pm id name env).2 := by
  unfold startProcess
  cases hl : lookupProc pm id with
  | some p => simpa using h
  | none =>
    by_cases h1 : env.stdoutPipeOk
    · by_cases h2 : env.stderrPipeOk
      · by_cases h3 : env.stdinPipeOk
        · by_cases h4 : env.startOk
          · simp only [h1, h2, h3, h4, Bool.not_true, Bool.false_eq_true,
              if_false]
            exact procKeysNodup_insert pm id _ hl h
          · have h4f : env.startOk = false := by
              cases hb : env.startOk
              · rfl
              · exact absurd hb h4
            simp only [h1, h2, h3, h4f, Bool.not_true, Bool.not_false,
              Bool.false_eq_true, if_false, if_true]
            exact procKeysNodup_erase _ id (procKeysNodup_insert pm id _ hl h)
        · have h3f : env.stdinPipeOk = false := by
            cases hb : env.stdinPipeOk
            · rfl
            · exact absurd hb h3
          simp [h1, h2, h3f, h]
      · have h2f : env.stderrPipeOk = false := by
          cases hb : env.stderrPipeOk
          · rfl
          · exact absurd hb h2
        simp [h1, h2f, h]
    · have h1f : env.stdoutPipeOk = false := by
        cases hb : env.stdoutPipeOk
        · rfl
        · exact absurd hb h1
      simp [h1f, h]

/-! ## Claim theorems -/

/-- Claim C1: calling `StartProcess` with an ID for which an entry already
exists fails with an error and leaves the manager's state unchanged — the
returned manager is the original one, the existing entry is untouched and no
second entry is created — and `StartProcess` preserves the at-most-one-entry-
per-ID invariant of the process map in every branch. -/
theorem startProcess_duplicate_fails (pm : ProcessManager) (id name : String)
    (env : SpawnEnv) (p : ManagedProcess)
    (h : lookupProc pm id = some p) :
    startProcess pm id name env =
      (.error ("process " ++ id ++ " already exists"), pm) ∧
    (startProcess pm id name env).2 = pm ∧
    lookupProc (startProcess pm id name env).2 id = some p ∧
    (∀ (pm2 : ProcessManager) (env2 : SpawnEnv), procKeysNodup pm2 →
      procKeysNodup (startProcess pm2 id name env2).2) := by
  have heq : startProcess pm id name env =
      (.error ("process " ++ id ++ " already exists"), pm) := by
    unfold startProcess
    rw [h]
  refine ⟨heq, ?_, ?_, ?_⟩
  · rw [heq]
  · rw [heq]
    exact h
  · intro pm2 env2 h2
    exact startProcess_preserves_nodup pm2 id name env2 h2

/-- Witness for C1 at a concrete manager that already holds `webapp-a`. -/
theorem startProcess_duplicate_fails_witness :
    startProcess pmEx ("webapp-a") ("WebApp a") spawnOk =
      (.error ("process webapp-a already exists"), pmEx) :=
  (startProcess_duplicate_fails pmEx ("webapp-a") ("WebApp a") spawnOk
    procRunning (by decide)).1

/-- Claim C2: `ManagedProcess.Stop` is idempotent — when the state is
already Stopped or Stopping it returns immediately with no error and changes
nothing; it never returns an error; a second `Stop` right after a first one
is a complete no-op (so no stream is ever closed a second time, witnessed by
the per-stream close counters); and `Stop` leaves the state Stopped from
every state a caller can observe at a call boundary (every state except the
mid-call-only Stopping, which `Stop` leaves unchanged by the first part). -/
theorem stopProcess_idempotent (p : ManagedProcess) :
    ((p.state = ProcessState.stopped ∨ p.state = ProcessState.stopping) →
      stopProcess p = (p, none)) ∧
    (stopProcess p).2 = none ∧
    stopProcess (stopProcess p).1 = ((stopProcess p).1, none) ∧
    ((stopProcess (stopProcess p).1).1.stdoutCloses
        = (stopProcess p).1.stdoutCloses ∧
     (stopProcess (stopProcess p).1).1.stderrCloses
        = (stopProcess p).1.stderrCloses ∧
     (stopProcess (stopProcess p).1).1.stdinCloses
        = (stopProcess p).1.stdinCloses) ∧
    (p.state ≠ ProcessState.stopping →
      ((stopProcess p).1).state = ProcessState.stopped) := by
  by_cases hc : p.state = ProcessState.stopped ∨ p.state = ProcessState.stopping
  · have h1 : stopProcess p = (p, none) := stopProcess_noop p hc
    have hagain : stopProcess (stopProcess p).1 = ((stopProcess p).1, none) := by
      rw [h1]
      exact h1
    refine ⟨fun _ => h1, ?_, hagain, ?_, ?_⟩
    · rw [h1]
    · rw [hagain]
      exact ⟨rfl, rfl, rfl⟩
    · intro hns
      rcases hc with hst | hst
      · rw [h1]
        exact hst
      · exact absurd hst hns
  · have hstate : (stopProcess p).1.state = ProcessState.stopped :=
      (stopProcess_active p hc).1
    have hagain : stopProcess (stopProcess p).1 = ((stopProcess p).1, none) :=
      stopProcess_noop _ (Or.inl hstate)
    refine ⟨fun hk => absurd hk hc, (stopProcess_active p hc).2, hagain, ?_,
      fun _ => hstate⟩
    rw [hagain]
    exact ⟨rfl, rfl, rfl⟩

/-- Witness for C2 at a concrete running process: the stop succeeds, ends
Stopped, and a second stop is a no-op. -/
theorem stopProcess_idempotent_witness :
    (stopProcess procRunning).1.state = ProcessState.stopped ∧
    (stopProcess procRunning).2 = none ∧
    stopProcess (stopProcess procRunning).1
      = ((stopProcess procRunning).1, none) :=
  ⟨(stopProcess_idempotent procRunning).2.2.2.2 (by decide),
   (stopProcess_idempotent procRunning).2.1,
   (stopProcess_idempotent procRunning).2.2.1⟩

/-- Defining equation of the gate fold on a cons cell. -/
theorem checkDependencies_cons (d : DependencyConfig) (b : DepBehavior)
    (rest : List (DependencyConfig × DepBehavior)) :
    checkDependencies ((d, b) :: rest) =
      (match checkDependency d b with
       | .ok _ => checkDependencies rest
       | .error e => .error e) := rfl

/-- Dependencies that pass their check contribute nothing to the gate: the
fold continues behind them unchanged. -/
theorem checkDependencies_append_ok
    (pre rest : List (DependencyConfig × DepBehavior))
    (hpre : ∀ x ∈ pre, checkDependency x.1 x.2 = .ok ()) :
    checkDependencies (pre ++ rest) = checkDependencies rest := by
  induction pre with
  | nil => rfl
  | cons x t ih =>
    obtain ⟨xd, xb⟩ := x
    have hx : checkDependency xd xb = .ok () :=
      hpre (xd, xb) (List.mem_cons_self _ _)
    have ht : ∀ y ∈ t, checkDependency y.1 y.2 = .ok () :=
      fun y hy => hpre y (List.mem_cons_of_mem _ hy)
    calc checkDependencies (((xd, xb) :: t) ++ rest)
        = checkDependencies ((xd, xb) :: (t ++ rest)) := by
          rw [List.cons_append]
      _ = checkDependencies (t ++ rest) := by
          rw [checkDependencies_cons, hx]
      _ = checkDependencies rest := ih ht

/-- Claim C3: the gate processes dependencies in declaration order; a
dependency whose check exits 0 is ready and processing continues behind it,
while a failing check with no configured start command makes the whole gate
return the "not running, no start command" error naming that dependency —
regardless of what comes after it, so no service is launched. -/
theorem checkDependencies_fail_fast
    (pre : List (DependencyConfig × DepBehavior))
    (d : DependencyConfig) (b : DepBehavior)
    (post : List (DependencyConfig × DepBehavior))
    (hpre : ∀ x ∈ pre, checkDependency x.1 x.2 = .ok ())
    (hcheck : b.initialCheck = false) (hstart : d.start = "") :
    (∀ (d2 : DependencyConfig) (b2 : DepBehavior)
        (rest : List (DependencyConfig × DepBehavior)),
      b2.initialCheck = true →
      checkDependency d2 b2 = .ok () ∧
      checkDependencies ((d2, b2) :: rest) = checkDependencies rest) ∧
    checkDependency d b =
      .error ("dependency " ++ d.name ++
        " is not running and no start command provided") ∧
    checkDependencies (pre ++ (d, b) :: post) =
      .error ("dependency " ++ d.name ++
        " is not running and no start command provided") := by
  have herr : checkDependency d b =
      .error ("dependency " ++ d.name ++
        " is not running and no start command provided") := by
    unfold checkDependency
    simp [hcheck, hstart]
  refine ⟨?_, herr, ?_⟩
  · intro d2 b2 rest h2
    have hok : checkDependency d2 b2 = .ok () := by
      unfold checkDependency
      simp [h2]
    refine ⟨hok, ?_⟩
    rw [checkDependencies_cons, hok]
  · rw [checkDependencies_append_ok pre ((d, b) :: post) hpre,
      checkDependencies_cons, herr]

/-- Witness for C3: a ready postgres followed by a redis whose check fails
and which has no start command; the gate aborts with the redis error. -/
theorem checkDependencies_fail_fast_witness :
    checkDependencies
      [ (⟨"postgres", "pg_isready", "docker run -d postgres:15", 30⟩,
         ⟨true, true, true, "", fun _ => true⟩),
        (⟨"redis", "redis-cli ping", "", 15⟩,
         ⟨false, true, true, "", fun _ => false⟩),
        (⟨"mongo", "mongo --eval 1", "", 15⟩,
         ⟨true, true, true, "", fun _ => true⟩) ] =
      .error ("dependency redis is not running and no start command provided") :=
  (checkDependencies_fail_fast
    [ (⟨"postgres", "pg_isready", "docker run -d postgres:15", 30⟩,
       ⟨true, true, true, "", fun _ => true⟩) ]
    ⟨"redis", "redis-cli ping", "", 15⟩
    ⟨false, true, true, "", fun _ => false⟩
    [ (⟨"mongo", "mongo --eval 1", "", 15⟩,
       ⟨true, true, true, "", fun _ => true⟩) ]
    (by
      intro x hx
      simp only [List.mem_singleton] at hx
      subst hx
      rfl)
    rfl rfl).2.2

/-- Success of the poll loop: when the first `N` polls fail and poll `N + 1`
succeeds while the deadline has not passed, the loop stops with exactly
`N + 1` polls used. -/
theorem pollCheck_succeeds (check : Nat → Bool) (deadline : Nat) :
    ∀ (N now attempts : Nat),
      (∀ k, attempts < k → k ≤ attempts + N → check k = false) →
      check (attempts + N + 1) = true →
      now + 2 * N < deadline →
      pollCheck check deadline now attempts = .ok (attempts + N + 1) := by
  intro N
  induction N with
  | zero =>
    intro now attempts hfail hsucc hlt
    have hnow : now < deadline := by omega
    unfold pollCheck
    rw [if_pos hnow]
    simp only [Nat.add_zero] at hsucc
    simp [hsucc]
  | succ n ih =>
    intro now attempts hfail hsucc hlt
    have hnow : now < deadline := by omega
    have hf1 : check (attempts + 1) = false :=
      hfail (attempts + 1) (by omega) (by omega)
    have harith : attempts + 1 + n + 1 = attempts + (n + 1) + 1 := by omega
    have hrec : pollCheck check deadline (now + 2) (attempts + 1) =
        .ok (attempts + 1 + n + 1) := by
      refine ih (now + 2) (attempts + 1) ?_ ?_ (by omega)
      · intro k hk1 hk2
        exact hfail k (by omega) (by omega)
      · rw [harith]
        exact hsucc
    unfold pollCheck
    rw [if_pos hnow]
    simp only [hf1, Bool.false_eq_true, if_false]
    rw [hrec, harith]

/-- Timeout of the poll loop: when every poll fails, the loop runs
`⌈(deadline - now) / 2⌉` further polls and then reports failure. -/
theorem pollCheck_timeout (check : Nat → Bool) (hnever : ∀ k, check k = false)
    (deadline : Nat) :
    ∀ (m now attempts : Nat), deadline - now ≤ m →
      pollCheck check deadline now attempts =
        .error (attempts + (deadline - now + 1) / 2) := by
  intro m
  induction m with
  | zero =>
    intro now attempts hm
    unfold pollCheck
    rw [if_neg (by omega)]
    congr 1
    omega
  | succ n ih =>
    intro now attempts hm
    by_cases hnow : now < deadline
    · unfold pollCheck
      rw [if_pos hnow]
      simp only [hnever, Bool.false_eq_true, if_false]
      rw [ih (now + 2) (attempts + 1) (by omega)]
      congr 1
      omega
    · unfold pollCheck
      rw [if_neg hnow]
      congr 1
      omega

/-- Under a failing initial check with a configured, successfully executed
start command, `checkDependency` is exactly the poll loop. -/
theorem checkDependency_poll_eq (d : DependencyConfig) (b : DepBehavior)
    (hini : b.initialCheck = false) (hstart : d.start ≠ "")
    (hlaunch : b.startOk = true) :
    checkDependency d b =
      (match pollCheck b.pollResult (effectiveTimeout d) 0 0 with
       | .ok _ => .ok ()
       | .error _ =>
         .error ("dependency " ++ d.name ++ " failed to become ready within "
           ++ toString (effectiveTimeout d) ++ "s")) := by
  unfold checkDependency
  simp [hini, hstart, hlaunch]

/-- Claim C4: for a dependency whose check initially fails and whose start
command runs, the gate polls the check every 2 seconds until it succeeds or
`timeoutSeconds` (default 30 when the field is absent) elapses.  If the
check fails `N` times and then succeeds within the poll budget, the gate
succeeds after exactly `N + 1 ≤ ⌈timeout / 2⌉` polls; if the check never
succeeds, the gate runs the full `⌈timeout / 2⌉` polls — so at least
`timeout` seconds of polling delay have elapsed, never less — and only then
returns the dependency-specific timeout error. -/
theorem checkDependency_poll_bounds (d : DependencyConfig) (b : DepBehavior)
    (hini : b.initialCheck = false) (hstart : d.start ≠ "")
    (hlaunch : b.startOk = true) :
    (∀ N : Nat,
      (∀ k, 1 ≤ k → k ≤ N → b.pollResult k = false) →
      b.pollResult (N + 1) = true →
      N + 1 ≤ (effectiveTimeout d + 1) / 2 →
      pollCheck b.pollResult (effectiveTimeout d) 0 0 = .ok (N + 1) ∧
      checkDependency d b = .ok ()) ∧
    ((∀ k, b.pollResult k = false) →
      pollCheck b.pollResult (effectiveTimeout d) 0 0 =
        .error ((effectiveTimeout d + 1) / 2) ∧
      effectiveTimeout d ≤ 2 * ((effectiveTimeout d + 1) / 2) ∧
      checkDependency d b =
        .error ("dependency " ++ d.name ++ " failed to become ready within "
          ++ toString (effectiveTimeout d) ++ "s")) ∧
    (∀ d2 : DependencyConfig, d2.timeout = 0 → effectiveTimeout d2 = 30) := by
  refine ⟨?_, ?_, ?_⟩
  · intro N hfail hsucc hbound
    have hpoll : pollCheck b.pollResult (effectiveTimeout d) 0 0 =
        .ok (N + 1) := by
      have := pollCheck_succeeds b.pollResult (effectiveTimeout d) N 0 0
        (fun k hk1 hk2 => hfail k (by omega) (by omega))
        (by simpa using hsucc) (by omega)
      simpa using this
    refine ⟨hpoll, ?_⟩
    rw [checkDependency_poll_eq d b hini hstart hlaunch, hpoll]
  · intro hnever
    have hpoll : pollCheck b.pollResult (effectiveTimeout d) 0 0 =
        .error ((effectiveTimeout d + 1) / 2) := by
      have := pollCheck_timeout b.pollResult hnever (effectiveTimeout d)
        (effectiveTimeout d) 0 0 (by omega)
      simpa using this
    refine ⟨hpoll, by omega, ?_⟩
    rw [checkDependency_poll_eq d b hini hstart hlaunch, hpoll]
  · intro d2 h2
    unfold effectiveTimeout
    rw [h2]
    rfl

/-- Witness for C4: a dependency with a 4-second timeout whose check fails
once and passes on the second poll; the gate succeeds after 2 of the
allowed ⌈4/2⌉ = 2 polls. -/
theorem checkDependency_poll_bounds_witness :
    pollCheck (fun k => k == 2) (effectiveTimeout
      ⟨"postgres", "pg_isready", "docker run -d postgres:15", 4⟩) 0 0 =
      .ok 2 ∧
    checkDependency
      ⟨"postgres", "pg_isready", "docker run -d postgres:15", 4⟩
      ⟨false, true, true, "", fun k => k == 2⟩ = .ok () :=
  (checkDependency_poll_bounds
    ⟨"postgres", "pg_isready", "docker run -d postgres:15", 4⟩
    ⟨false, true, true, "", fun k => k == 2⟩
    rfl (by decide) rfl).1 1
    (by
      intro k hk1 hk2
      have hk : k = 1 := by omega
      subst hk
      rfl)
    rfl
    (by decide)

/-- The title branch finds nothing exactly when no pane title matches. -/
theorem titleResolveFrom_none_iff (ref : String) (l : List Pane) :
    ∀ i : Nat, (titleResolveFrom ref i l = none ↔
      ∀ p ∈ l, titleMatches ref p = false) := by
  induction l with
  | nil => intro i; simp [titleResolveFrom]
  | cons p t ih =>
    intro i
    by_cases hm : titleMatches ref p = true
    · simp [titleResolveFrom, hm]
    · have hm2 : titleMatches ref p = false := by
        cases hb : titleMatches ref p
        · rfl
        · exact absurd hb hm
      simp [titleResolveFrom, hm2, ih (i + 1)]

/-- A title-branch hit is a matching member of the listing. -/
theorem titleResolveFrom_some (ref : String) (l : List Pane) :
    ∀ (i : Nat) (p : Pane) (n : Nat),
      titleResolveFrom ref i l = some (p, n) →
      p ∈ l ∧ titleMatches ref p = true := by
  induction l with
  | nil => intro i p n h; simp [titleResolveFrom] at h
  | cons q t ih =>
    intro i p n h
    by_cases hm : titleMatches ref q = true
    · simp only [titleResolveFrom, hm, if_true, Option.some.injEq,
        Prod.mk.injEq] at h
      obtain ⟨rfl, rfl⟩ := h
      exact ⟨List.mem_cons_self _ _, hm⟩
    · simp only [titleResolveFrom, hm, if_false] at h
      obtain ⟨hmem, hmat⟩ := ih (i + 1) p n h
      exact ⟨List.mem_cons_of_mem _ hmem, hmat⟩

/-- When the numeric branch finds nothing, `findTab` is the title branch
followed by the enumerated-names error. -/
theorem findTab_title_eq (panes : List Pane) (ref : String)
    (hne : panes.length ≠ 0) (hnum : numericResolve panes ref = none) :
    findTab panes ref =
      (match titleResolve panes ref with
       | some r => .ok r
       | none => .error (notFoundMsg panes ref)) := by
  unfold findTab
  rw [if_neg hne, hnum]

/-- Claim C5: against the listing `[backend, flutter-ios, flutter-android]`,
the reference `"2"` resolves positionally (1-based) to `flutter-ios`; the
reference `"flutter"` resolves to the first pane whose title contains it
case-insensitively, which is `flutter-ios`; and the unmatched reference
`"db"` produces the not-found error enumerating the known names. -/
theorem findTab_reference_examples :
    findTab panesEx ("2") = .ok (paneFlutterIos, 2) ∧
    findTab panesEx ("flutter") = .ok (paneFlutterIos, 2) ∧
    titleMatches ("flutter") paneFlutterIos = true ∧
    findTab panesEx ("db") =
      .error ("tab \x27db\x27 not found. Available: [1:backend 2:flutter-ios 3:flutter-android]") :=
  ⟨rfl, rfl, rfl, rfl⟩

/-- Claim C6 counterexample: the reference `"flutter"` matches two of the
three panes, yet `findTab` silently returns the first match instead of an
error with the current listing. -/
theorem findTab_ambiguous_counterexample :
    (panesEx.filter (fun p => titleMatches ("flutter") p)).length = 2 ∧
    findTab panesEx ("flutter") = .ok (paneFlutterIos, 2) :=
  ⟨by decide, rfl⟩

/-- Claim C6 as amended: when a reference matches no session (and does not
resolve numerically), `findTab` returns an error carrying the full current
listing of known names; when one or more sessions match, it silently
returns the first matching session in listing order — it never errors on an
ambiguous reference. -/
theorem findTab_resolution_amended (panes : List Pane) (ref : String)
    (hne : panes.length ≠ 0) (hnum : numericResolve panes ref = none) :
    ((∀ p ∈ panes, titleMatches ref p = false) →
      findTab panes ref = .error (notFoundMsg panes ref)) ∧
    (∀ (p : Pane) (n : Nat), titleResolve panes ref = some (p, n) →
      findTab panes ref = .ok (p, n) ∧ p ∈ panes ∧
      titleMatches ref p = true) := by
  refine ⟨?_, ?_⟩
  · intro hnone
    have ht : titleResolve panes ref = none :=
      (titleResolveFrom_none_iff ref panes 1).mpr hnone
    rw [findTab_title_eq panes ref hne hnum, ht]
  · intro p n h
    obtain ⟨hmem, hmat⟩ := titleResolveFrom_some ref panes 1 p n h
    refine ⟨?_, hmem, hmat⟩
    rw [findTab_title_eq panes ref hne hnum, h]

/-- Witness for the amended C6 at the concrete listing: the unmatched
reference `"db"` yields the enumerated-names error, and the ambiguous
reference `"flutter"` yields its first match. -/
theorem findTab_resolution_amended_witness :
    findTab panesEx ("db") =
      .error (notFoundMsg panesEx ("db")) ∧
    findTab panesEx ("flutter") = .ok (paneFlutterIos, 2) := by
  have h1 := (findTab_resolution_amended panesEx ("db") (by decide)
    (by decide)).1 (by decide)
  have h2 := (findTab_resolution_amended panesEx ("flutter") (by decide)
    (by decide)).2 paneFlutterIos 2 (by decide)
  exact ⟨h1, h2.1⟩

/-- Claim C10: a reference that parses as an integer `n ≥ 1` larger than the
number of listed panes produces no out-of-range error: the numeric branch
finds nothing and resolution falls through to case-insensitive substring
matching, with the enumerated-names error only when that also fails. -/
theorem findTab_numeric_overflow (panes : List Pane) (ref : String) (n : Int)
    (hne : panes.length ≠ 0) (hp : atoi ref = some n) (h1 : 1 ≤ n)
    (hover : (panes.length : Int) < n) :
    numericResolve panes ref = none ∧
    findTab panes ref =
      (match titleResolve panes ref with
       | some r => .ok r
       | none => .error (notFoundMsg panes ref)) := by
  have hnum : numericResolve panes ref = none := by
    have hget : panes.get? (n - 1).toNat = none := by
      rw [List.get?_eq_none]
      omega
    unfold numericResolve
    simp only [hp]
    rw [if_pos h1, hget]
  exact ⟨hnum, findTab_title_eq panes ref hne hnum⟩

/-- Witness for C10: the reference `"5"` against three panes falls through
to title matching and, matching no title, yields the enumerated error. -/
theorem findTab_numeric_overflow_witness :
    numericResolve panesEx ("5") = none ∧
    findTab panesEx ("5") =
      .error ("tab \x275\x27 not found. Available: [1:backend 2:flutter-ios 3:flutter-android]") := by
  have h := findTab_numeric_overflow panesEx ("5") 5 (by decide) (by decide)
    (by decide) (by decide)
  refine ⟨h.1, ?_⟩
  rw [h.2]
  rfl

/-- Membership in the descending insertion. -/
theorem mem_insertDescNat (x a : Nat) (l : List Nat) :
    a ∈ insertDescNat x l ↔ a = x ∨ a ∈ l := by
  induction l with
  | nil => simp [insertDescNat]
  | cons y t ih =>
    by_cases hyx : y ≤ x
    · simp [insertDescNat, hyx]
    · simp only [insertDescNat, if_neg hyx, List.mem_cons, ih]
      tauto

/-- Membership in the newest-first sort. -/
theorem mem_sortDesc (a : Nat) (l : List Nat) :
    a ∈ sortDesc l ↔ a ∈ l := by
  induction l with
  | nil => simp [sortDesc]
  | cons y t ih => simp [sortDesc, mem_insertDescNat, ih]

/-- Descending insertion preserves the newest-first ordering. -/
theorem pairwise_insertDescNat (x : Nat) (l : List Nat)
    (h : List.Pairwise (fun a b => b ≤ a) l) :
    List.Pairwise (fun a b => b ≤ a) (insertDescNat x l) := by
  induction l with
  | nil => simp [insertDescNat]
  | cons y t ih =>
    obtain ⟨hy, ht⟩ := List.pairwise_cons.mp h
    by_cases hyx : y ≤ x
    · rw [insertDescNat, if_pos hyx]
      refine List.pairwise_cons.mpr ⟨?_, h⟩
      intro b hb
      rcases List.mem_cons.mp hb with rfl | hbt
      · exact hyx
      · exact le_trans (hy b hbt) hyx
    · rw [insertDescNat, if_neg hyx]
      refine List.pairwise_cons.mpr ⟨?_, ih ht⟩
      intro b hb
      rcases (mem_insertDescNat x b t).mp hb with rfl | hbt
      · omega
      · exact hy b hbt

/-- The newest-first sort is sorted. -/
theorem pairwise_sortDesc (l : List Nat) :
    List.Pairwise (fun a b => b ≤ a) (sortDesc l) := by
  induction l with
  | nil => simp [sortDesc]
  | cons y t ih => exact pairwise_insertDescNat y (sortDesc t) ih

/-- Claim C7: after the rotation step the wrapper script performs at the
start of a new run, the service's log directory retains at most 10
timestamped run files (the `latest` alias excluded from the enumeration),
only the oldest files beyond the newest 10 having been deleted — every
deleted timestamp is at most every kept timestamp — and after the run file
is created the `latest` alias points at the run with the greatest
timestamp, i.e. the most recently created run. -/
theorem wrapCommand_rotation (d : LogDir) (ts : Nat)
    (hfresh : ∀ r ∈ d.runs, r < ts) :
    (rotateStep d ts).runs.length ≤ 10 ∧
    (∀ q ∈ d.runs, q ∉ (rotateStep d ts).runs →
      ∀ r ∈ (rotateStep d ts).runs, q ≤ r) ∧
    (runWrapper d ts).latest = some ts ∧
    ts ∈ (runWrapper d ts).runs ∧
    (∀ r ∈ (runWrapper d ts).runs, r ≤ ts) := by
  have hkept_sub : ∀ r ∈ (rotateStep d ts).runs, r ∈ d.runs := by
    intro r hr
    exact (mem_sortDesc r d.runs).mp (List.take_subset 10 (sortDesc d.runs) hr)
  refine ⟨?_, ?_, rfl, List.mem_cons_self _ _, ?_⟩
  · calc (rotateStep d ts).runs.length
        = min 10 (sortDesc d.runs).length := List.length_take 10 _
      _ ≤ 10 := Nat.min_le_left _ _
  · intro q hq hqdel r hr
    have hsplit : (sortDesc d.runs).take 10 ++ (sortDesc d.runs).drop 10 =
        sortDesc d.runs := List.take_append_drop 10 _
    have hpw : List.Pairwise (fun a b => b ≤ a)
        ((sortDesc d.runs).take 10 ++ (sortDesc d.runs).drop 10) := by
      rw [hsplit]
      exact pairwise_sortDesc d.runs
    have hcross := (List.pairwise_append.mp hpw).2.2
    have hqs : q ∈ sortDesc d.runs := (mem_sortDesc q d.runs).mpr hq
    have hqdrop : q ∈ (sortDesc d.runs).drop 10 := by
      rcases (List.mem_append.mp (hsplit ▸ hqs)) with hqt | hqd
      · exact absurd hqt hqdel
      · exact hqd
    exact hcross r hr q hqdrop
  · intro r hr
    rcases List.mem_cons.mp hr with rfl | hrk
    · exact le_refl r
    · exact le_of_lt (hfresh r (hkept_sub r hrk))

/-- Witness for C7 at a directory that holds 12 runs: rotation keeps the 10
newest, run 13 is then written and `latest` points at it. -/
theorem wrapCommand_rotation_witness :
    (rotateStep ⟨[1, 2, 3, 4, 5, 6, 7, 8, 9, 10, 11, 12], some 12⟩ 13).runs.length ≤ 10 ∧
    (runWrapper ⟨[1, 2, 3, 4, 5, 6, 7, 8, 9, 10, 11, 12], some 12⟩ 13).latest = some 13 ∧
    (runWrapper ⟨[1, 2, 3, 4, 5, 6, 7, 8, 9, 10, 11, 12], some 12⟩ 13).runs =
      [13, 12, 11, 10, 9, 8, 7, 6, 5, 4, 3] := by
  have h := wrapCommand_rotation ⟨[1, 2, 3, 4, 5, 6, 7, 8, 9, 10, 11, 12], some 12⟩ 13
    (by decide)
  exact ⟨h.1, h.2.2.1, by decide⟩

/-- A log tail that carries two exit-code markers: an earlier run marker
with code 0 followed by a later marker with code 1. -/
def tailBothMarkers : String :=
  "=== Exited with code 0 at Mon ===\nrestart\n=== Exited with code 1 at Tue ==="

/-- Membership in the crash scan's output, characterised: a name is reported
exactly when some listed service with that name has a readable log whose
2048-byte tail classifies as failed. -/
theorem mem_checkServiceFailures (services : List ServiceLog) (nm : String) :
    nm ∈ checkServiceFailures services ↔
      ∃ s ∈ services, s.name = nm ∧ ∃ content, s.log = some content ∧
        classifyFailed (tailOf content 2048) = true := by
  induction services with
  | nil => simp [checkServiceFailures]
  | cons s t ih =>
    cases hlog : s.log with
    | none =>
      rw [checkServiceFailures, hlog]
      rw [ih]
      constructor
      · rintro ⟨x, hx, hrest⟩
        exact ⟨x, List.mem_cons_of_mem _ hx, hrest⟩
      · rintro ⟨x, hx, hnm, content, hcontent, hcl⟩
        rcases List.mem_cons.mp hx with rfl | hxt
        · rw [hlog] at hcontent
          exact absurd hcontent (Option.noConfusion)
        · exact ⟨x, hxt, hnm, content, hcontent, hcl⟩
    | some content =>
      by_cases hc : classifyFailed (tailOf content 2048) = true
      · simp only [checkServiceFailures, hlog]
        rw [if_pos hc]
        constructor
        · intro hmem
          rcases List.mem_cons.mp hmem with rfl | hmt
          · exact ⟨s, List.mem_cons_self _ _, rfl, content, hlog, hc⟩
          · obtain ⟨x, hx, hrest⟩ := ih.mp hmt
            exact ⟨x, List.mem_cons_of_mem _ hx, hrest⟩
        · rintro ⟨x, hx, hnm, c2, hc2, hcl2⟩
          rcases List.mem_cons.mp hx with rfl | hxt
          · exact hnm ▸ List.mem_cons_self _ _
          · exact List.mem_cons_of_mem _ (ih.mpr ⟨x, hxt, hnm, c2, hc2, hcl2⟩)
      · simp only [checkServiceFailures, hlog]
        rw [if_neg hc, ih]
        constructor
        · rintro ⟨x, hx, hrest⟩
          exact ⟨x, List.mem_cons_of_mem _ hx, hrest⟩
        · rintro ⟨x, hx, hnm, c2, hc2, hcl2⟩
          rcases List.mem_cons.mp hx with rfl | hxt
          · rw [hlog] at hc2
            obtain rfl : content = c2 := Option.some.inj hc2
            exact absurd hcl2 hc
          · exact ⟨x, hxt, hnm, c2, hc2, hcl2⟩

/-- Claim C8 counterexample: a tail that contains the marker
`Exited with code 1` but whose first marker carries code 0 is classified as
not-failed, so the scan does not report the service — against the claim's
"failed exactly when the tail contains the marker with a non-zero code". -/
theorem checkServiceFailures_counterexample :
    containsL tailBothMarkers.data (("Exited with code 1").data) = true ∧
    classifyFailed tailBothMarkers = false ∧
    checkServiceFailures [⟨"backend", some tailBothMarkers⟩] = [] :=
  ⟨by decide, by decide, by decide⟩

/-- Claim C8 as amended: the scan classifies a service as failed exactly
when the FIRST exit-code marker in its 2048-byte log tail carries a
non-zero code.  In particular a tail whose only marker is
`Exited with code 1` is classified as failed, while a tail whose first
marker is `Exited with code 0`, or with no marker at all, is classified as
not-failed; a service name is reported exactly when its readable log tail
classifies as failed. -/
theorem checkServiceFailures_amended (services : List ServiceLog)
    (nm : String) :
    (nm ∈ checkServiceFailures services ↔
      ∃ s ∈ services, s.name = nm ∧ ∃ content, s.log = some content ∧
        classifyFailed (tailOf content 2048) = true) ∧
    (∀ tail : String, classifyFailed tail = true ↔
      ∃ c, findExitCode tail.data = some c ∧ c ≠ 0) ∧
    classifyFailed ("=== Exited with code 1 at Tue ===") = true ∧
    classifyFailed ("=== Exited with code 0 at Tue ===") = false ∧
    classifyFailed ("service output without marker") = false := by
  refine ⟨mem_checkServiceFailures services nm, ?_, by decide, by decide,
    by decide⟩
  intro tail
  unfold classifyFailed
  cases hf : findExitCode tail.data with
  | none => simp
  | some c =>
    simp only [Option.some.injEq]
    constructor
    · intro hb
      exact ⟨c, rfl, by simpa using hb⟩
    · rintro ⟨c2, rfl, hne⟩
      simpa using hne

/-- Witness for the amended C8: with one service whose tail's only marker is
`Exited with code 1`, the scan reports exactly that service. -/
theorem checkServiceFailures_amended_witness :
    ("backend" : String) ∈ checkServiceFailures
      [⟨"backend", some ("=== Exited with code 1 at Tue ===")⟩] :=
  (checkServiceFailures_amended
    [⟨"backend", some ("=== Exited with code 1 at Tue ===")⟩]
    ("backend")).1.mpr
    ⟨⟨"backend", some ("=== Exited with code 1 at Tue ===")⟩,
      List.mem_cons_self _ _, rfl,
      "=== Exited with code 1 at Tue ===", rfl, by decide⟩

/-- Claim C9 counterexample: the bridge's `tools/list` response offers four
tools, not six — neither a start-one tool nor a historical-log tool is
offered. -/
theorem toolsList_counterexample :
    toolsList.map (fun t => t.name) =
      ["crux_status", "crux_send", "crux_logs", "crux_focus"] ∧
    toolsList.length = 4 ∧
    ¬ toolsList.length = 6 :=
  ⟨by decide, by decide, by decide⟩

/-- Claim C9 as amended: `tools/list` offers exactly the four tools
`crux_status`, `crux_send`, `crux_logs` and `crux_focus`; a `tools/call`
for one of them is carried out by the corresponding handler, which drives
the wezterm CLI directly (list / send-text / get-text / activate-pane)
rather than issuing a ControlPlane HTTP request; any other tool name
(including a start-one or historical-log tool) produces an unknown-tool
error result. -/
theorem handleToolCall_dispatch (env : WeztermEnv) (tab text lines : String) :
    toolsList.map (fun t => t.name) =
      ["crux_status", "crux_send", "crux_logs", "crux_focus"] ∧
    handleToolCall ("crux_status") tab text lines env = getStatus env ∧
    handleToolCall ("crux_send") tab text lines env = sendToTab env tab text ∧
    handleToolCall ("crux_logs") tab text lines env = getTabLogs env tab lines ∧
    handleToolCall ("crux_focus") tab text lines env = focusTab env tab ∧
    (∀ nm : String, nm ∉ toolsList.map (fun t => t.name) →
      handleToolCall nm tab text lines env = ("Unknown tool: " ++ nm, true)) := by
  refine ⟨by decide, rfl, rfl, rfl, rfl, ?_⟩
  intro nm hnm
  have hne : ¬ nm = "crux_status" ∧ ¬ nm = "crux_send" ∧
      ¬ nm = "crux_logs" ∧ ¬ nm = "crux_focus" := by
    simpa [toolsList] using hnm
  unfold handleToolCall
  rw [if_neg hne.1, if_neg hne.2.1, if_neg hne.2.2.1, if_neg hne.2.2.2]

/-- Witness for the amended C9: the six-tool vocabulary's historical-log
tool is not part of this bridge — calling it yields the unknown-tool
error. -/
theorem handleToolCall_dispatch_witness :
    handleToolCall ("crux_logfile") ("backend") ("") ("") envEx =
      ("Unknown tool: crux_logfile", true) :=
  (handleToolCall_dispatch envEx ("backend") ("") ("")).2.2.2.2.2
    ("crux_logfile") (by decide)

end CruxSpec
